import Mathlib

/-!
# Solaris — verification of the solar-yield / financial-modelling core

Shallow embedding of the numeric core of the Solaris repository
(`app.py`, `app_railway.py`, `solar_prediction_system/…`) and proofs about
it.  Python floats are embedded as rationals (`ℚ`), which keeps every
arithmetic step of the source exact.  Python's `round` (banker's rounding)
and `int` (truncation toward zero) are embedded explicitly below.
Library calls whose values are transcendental (`pvlib` solar positions,
Erbs/Perez irradiance terms, `sin²` diurnal shapes, SAPM cell
temperatures) are universally quantified series parameters; every step the
repository itself performs on those values (clipping, bifacial gain,
efficiency products, aggregation, rounding) is embedded concretely.
-/

namespace Solaris

/-! ## Python numeric helpers -/

/-- Round-half-even to the nearest integer, as Python's builtin `round`
behaves on exact values (ties go to the even integer). -/
def roundHalfEven (x : ℚ) : ℤ :=
  let n := ⌊x⌋
  let r := x - n
  if r < 1/2 then n
  else if 1/2 < r then n + 1
  else if Even n then n else n + 1

/-- Python `round(x, 1)`: round-half-even at one decimal place. -/
def pyRound1 (x : ℚ) : ℚ := (roundHalfEven (10 * x) : ℚ) / 10

/-- Python `round(x, 2)`: round-half-even at two decimal places. -/
def pyRound2 (x : ℚ) : ℚ := (roundHalfEven (100 * x) : ℚ) / 100

/-- Python `int(x)`: truncation toward zero. -/
def pyInt (x : ℚ) : ℤ := if 0 ≤ x then ⌊x⌋ else ⌈x⌉

/-! ## FinancialAnalyzer — cash flows
(`solar_prediction_system/core/financhial_analysis.py` and
`app.py::calculate_enhanced_financial_metrics`)

Both sources build the cumulative cash-flow list with the same loop
(`cumulative += year_revenue - maintenance_cost; cash_flows.append(...)`);
it is embedded as a recursive cumulative function mapped over
`0, 1, …, lifetime`.  The two variants differ only in the maintenance
rate: the `FinancialAnalyzer` module charges a flat `total_cost * 0.01`,
while `app.py` uses a tiered rate (1 % through year 10, 1.5 % through
year 20, 2 % afterwards). -/

/-- Tiered maintenance rate of `app.py::calculate_enhanced_financial_metrics`:
`0.01 if year <= 10 else 0.015 if year <= 20 else 0.02`. -/
def maintenanceRate (year : ℕ) : ℚ :=
  if year ≤ 10 then 1/100 else if year ≤ 20 then 3/200 else 1/50

/-- Cumulative cash position after `year` years in
`app.py::calculate_enhanced_financial_metrics` (tiered maintenance). -/
def appCumulative (totalCost annualRevenue degradation : ℚ) : ℕ → ℚ
  | 0 => -totalCost
  | year + 1 =>
      appCumulative totalCost annualRevenue degradation year +
        (annualRevenue * (1 - degradation) ^ (year + 1) -
          totalCost * maintenanceRate (year + 1))

/-- `cash_flows` list of `app.py::calculate_enhanced_financial_metrics`:
entry `y` is the cumulative position after year `y` (`y = 0 … lifetime`). -/
def appCashFlows (totalCost annualRevenue degradation : ℚ) (lifetime : ℕ) : List ℚ :=
  (List.range (lifetime + 1)).map (appCumulative totalCost annualRevenue degradation)

/-- Cumulative cash position after `year` years in
`FinancialAnalyzer._calculate_cash_flows` (flat 1 % maintenance). -/
def faCumulative (totalCost annualRevenue degradation : ℚ) : ℕ → ℚ
  | 0 => -totalCost
  | year + 1 =>
      faCumulative totalCost annualRevenue degradation year +
        (annualRevenue * (1 - degradation) ^ (year + 1) - totalCost * (1/100))

/-- `FinancialAnalyzer._calculate_cash_flows`. -/
def faCashFlows (totalCost annualRevenue degradation : ℚ) (lifetime : ℕ) : List ℚ :=
  (List.range (lifetime + 1)).map (faCumulative totalCost annualRevenue degradation)

/-! ## Payback period

`FinancialAnalyzer._calculate_payback_period` and the inline loop of
`app.py` (lines 419–429) run the same algorithm: scan `i = 1 … len-1`
for the first `i` with `cash_flows[i] >= 0 and cash_flows[i-1] < 0` and
linearly interpolate; if no such `i` exists the result is
`len(cash_flows)-1` (= `lifetime`) when the last entry is non-negative
and "not achieved" otherwise.  `app.py` encodes "not achieved" as
`float('inf')` and the module as `None`; both are embedded as `none`. -/

/-- The scan loop: `prev` is `cash_flows[i-1]`, `rest` holds the entries
from index `i` on. -/
def paybackScan (prev : ℚ) (rest : List ℚ) (i : ℕ) : Option ℚ :=
  match rest with
  | [] => none
  | c :: cs =>
      if 0 ≤ c ∧ prev < 0 then
        some (((i - 1 : ℕ) : ℚ) + (-prev) / (c - prev))
      else
        paybackScan c cs (i + 1)

/-- `FinancialAnalyzer._calculate_payback_period` (identically the loop of
`app.py::calculate_enhanced_financial_metrics`); `none` stands for the
source's `None` / `float('inf')`. -/
def calculatePaybackPeriod (cf : List ℚ) : Option ℚ :=
  match cf with
  | [] => none
  | c :: cs =>
      match paybackScan c cs 1 with
      | some p => some p
      | none =>
          if 0 ≤ (c :: cs).getLastD 0 then some (((cf.length - 1 : ℕ) : ℚ)) else none

/-! ## `app.py::calculate_enhanced_financial_metrics` (SMP + REC variant) -/

/-- The dict returned by `calculate_enhanced_financial_metrics`
(the `'location'`-free numeric fields; `payback_period = None` is
`none`). -/
structure EnhancedFinancialMetrics where
  total_cost : ℤ
  annual_production : ℚ
  annual_revenue : ℤ
  annual_smp_revenue : ℤ
  annual_rec_revenue : ℤ
  payback_period : Option ℚ
  roi : ℚ
  cash_flows : List ℚ
  life_cycle_revenue : ℤ
  net_profit : ℤ
  monthly_production : ℚ
  monthly_revenue : ℤ
  deriving Repr, DecidableEq

/-- `app.py::calculate_enhanced_financial_metrics`.  The source
accumulates `total_revenue_25years` and `total_maintenance_25years`
inside the same year loop that builds `cash_flows`; they are embedded as
the equivalent closed sums over `year = 1 … lifetime`. -/
def calculateEnhancedFinancialMetrics (annual_energy : ℚ) (system_size : ℚ := 3)
    (install_cost_per_kw : ℚ := 1800000) (electricity_price : ℚ := 220)
    (annual_degradation : ℚ := 1/200) (lifetime : ℕ := 25)
    (smp_price : ℚ := 180) (rec_price : ℚ := 40) : EnhancedFinancialMetrics :=
  let _ := electricity_price   -- accepted but unused by this variant
  let total_cost := system_size * install_cost_per_kw
  let annual_production := system_size * annual_energy
  let annual_smp_revenue := annual_production * smp_price
  let annual_rec_revenue := annual_production * rec_price
  let annual_revenue := annual_smp_revenue + annual_rec_revenue
  let cash_flows := appCashFlows total_cost annual_revenue annual_degradation lifetime
  let payback := calculatePaybackPeriod cash_flows
  let total_revenue :=
    ∑ year in Finset.Icc 1 lifetime, annual_revenue * (1 - annual_degradation) ^ year
  let total_maintenance :=
    ∑ year in Finset.Icc 1 lifetime, total_cost * maintenanceRate year
  let net_profit := total_revenue - total_maintenance - total_cost
  let roi := if 0 < total_cost then net_profit / total_cost * 100 else 0
  { total_cost := pyInt total_cost
    annual_production := pyRound1 annual_production
    annual_revenue := pyInt annual_revenue
    annual_smp_revenue := pyInt annual_smp_revenue
    annual_rec_revenue := pyInt annual_rec_revenue
    payback_period := payback.map pyRound1
    roi := pyRound1 roi
    cash_flows := cash_flows
    life_cycle_revenue := pyInt (total_revenue - total_maintenance)
    net_profit := pyInt net_profit
    monthly_production := pyRound1 (annual_production / 12)
    monthly_revenue := pyInt (annual_revenue / 12) }

/-! ## `app_railway.py::calculate_desktop_solar` -/

/-- The success dict of `calculate_desktop_solar` (all numeric fields;
the `'location'` string is presentation and omitted). -/
structure DesktopResult where
  annual_generation : ℤ
  annual_revenue : ℤ
  smp_revenue : ℤ
  rec_revenue : ℤ
  om_cost : ℤ
  install_cost : ℤ
  payback_years : ℚ
  optimal_tilt : ℚ
  optimal_azimuth : ℤ
  tilt_efficiency : ℚ
  azimuth_efficiency : ℚ
  system_size : ℚ
  deriving Repr, DecidableEq, Inhabited

/-- `system_size = float(system_size) if system_size else 30.0` followed by
`if system_size <= 0 or system_size > 10000: system_size = 30.0`
(Python's `0.0` is falsy). -/
def normSize (s : ℚ) : ℚ :=
  let s := if s = 0 then 30 else s
  if s ≤ 0 ∨ 10000 < s then 30 else s

/-- `tilt = float(tilt) if tilt else 30.0` followed by
`if tilt < 0 or tilt > 90: tilt = 30.0`. -/
def normTilt (t : ℚ) : ℚ :=
  let t := if t = 0 then 30 else t
  if t < 0 ∨ 90 < t then 30 else t

/-- `azimuth = float(azimuth) if azimuth else 180.0` followed by
`if azimuth < 0 or azimuth > 360: azimuth = 180.0`. -/
def normAzimuth (a : ℚ) : ℚ :=
  let a := if a = 0 then 180 else a
  if a < 0 ∨ 360 < a then 180 else a

/-- `smp_price = float(smp_price) if smp_price else 128.39`. -/
def normSmp (p : ℚ) : ℚ := if p = 0 then 12839/100 else p

/-- `rec_price = float(rec_price) if rec_price else 70000.0`. -/
def normRec (p : ℚ) : ℚ := if p = 0 then 70000 else p

/-- `optimal_tilt = abs(lat) * 0.76 + 3.1` of `calculate_desktop_solar`. -/
def desktopOptimalTilt (lat : ℚ) : ℚ := |lat| * (19/25) + 31/10

/-- `optimal_azimuth = 180 if lat >= 0 else 0` of `calculate_desktop_solar`. -/
def desktopOptimalAzimuth (lat : ℚ) : ℚ := if 0 ≤ lat then 180 else 0

/-- `tilt_efficiency = max(0.8, min(1.1, 1.0 - abs(tilt - optimal_tilt) * 0.008))`. -/
def desktopTiltEfficiency (lat tilt : ℚ) : ℚ :=
  max (4/5) (min (11/10) (1 - |tilt - desktopOptimalTilt lat| * (1/125)))

/-- `azimuth_diff = min(|azimuth - optimal_azimuth|, 360 - |azimuth - optimal_azimuth|)`;
`azimuth_efficiency = max(0.7, min(1.0, 1.0 - azimuth_diff * 0.002))`. -/
def desktopAzimuthEfficiency (lat azimuth : ℚ) : ℚ :=
  let azimuth_diff :=
    min |azimuth - desktopOptimalAzimuth lat| (360 - |azimuth - desktopOptimalAzimuth lat|)
  max (7/10) (min 1 (1 - azimuth_diff * (1/500)))

/-- `adjusted_generation = (system_size * 1300) * tilt_efficiency * azimuth_efficiency`. -/
def desktopAdjustedGeneration (lat system_size tilt azimuth : ℚ) : ℚ :=
  system_size * 1300 * desktopTiltEfficiency lat tilt * desktopAzimuthEfficiency lat azimuth

/-- Body of `calculate_desktop_solar` after input normalisation. -/
def desktopCompute (lat : ℚ) (system_size tilt azimuth smp_price rec_price : ℚ) :
    DesktopResult :=
  let optimal_tilt := desktopOptimalTilt lat
  let optimal_azimuth := desktopOptimalAzimuth lat
  let tilt_efficiency := desktopTiltEfficiency lat tilt
  let azimuth_efficiency := desktopAzimuthEfficiency lat azimuth
  let adjusted_generation := desktopAdjustedGeneration lat system_size tilt azimuth
  let smp_revenue := adjusted_generation * smp_price
  let rec_revenue := adjusted_generation / 1000 * (3/2) * rec_price
  let om_cost := system_size * 12000
  let annual_revenue := smp_revenue + rec_revenue - om_cost
  let install_cost := system_size * 2000000
  let payback_years := if 0 < annual_revenue then install_cost / annual_revenue else 999
  { annual_generation := roundHalfEven adjusted_generation
    annual_revenue := roundHalfEven annual_revenue
    smp_revenue := roundHalfEven smp_revenue
    rec_revenue := roundHalfEven rec_revenue
    om_cost := roundHalfEven om_cost
    install_cost := roundHalfEven install_cost
    payback_years := if payback_years < 50 then pyRound1 payback_years else 999/10
    optimal_tilt := pyRound1 optimal_tilt
    optimal_azimuth := roundHalfEven optimal_azimuth
    tilt_efficiency := pyRound1 (tilt_efficiency * 100)
    azimuth_efficiency := pyRound1 (azimuth_efficiency * 100)
    system_size := system_size }

/-- `app_railway.py::calculate_desktop_solar` on numeric inputs.
`none` models the `{'success': False, …}` error dicts; the only error
path reachable with numeric arguments is the falsy location check
`if not lat or not lng` (the `float()` conversions cannot fail). -/
def calculateDesktopSolar (lat lng system_size tilt azimuth smp_price rec_price : ℚ) :
    Option DesktopResult :=
  if lat = 0 ∨ lng = 0 then none
  else
    some (desktopCompute lat (normSize system_size) (normTilt tilt)
      (normAzimuth azimuth) (normSmp smp_price) (normRec rec_price))

/-! ## Empirical yield estimator — three-tier failure policy

The empirical estimator described in the specification (§4.1), with its
`calculate_simple_pv_energy` fallback and hard-coded last resort, is not
among the files under `src/`; only its production relative
`calculate_desktop_solar` is.  Its failure policy is therefore modelled
from the specification. -/

/-- The `YieldResult` record of the specification's data model. -/
structure YieldResult where
  annual_energy : ℚ
  monthly_energy : List ℚ
  temp_effect : ℚ
  optimal_tilt : ℚ
  optimal_azimuth : ℚ
  deriving Repr, DecidableEq

/-- Modelled from the spec: the last-resort estimate of the empirical
estimator's failure policy (the estimator itself, with its
`calculate_simple_pv_energy` fallback, is not under `src/`):
`annual_energy = ghi_annual × 0.15`, flat monthly split, fixed
`temp_effect = -5.0`, `optimal_tilt = 30`, `optimal_azimuth = 180`. -/
def lastResortEstimate (ghi_annual : ℚ) : YieldResult :=
  { annual_energy := ghi_annual * (3/20)
    monthly_energy := List.replicate 12 (ghi_annual * (3/20) / 12)
    temp_effect := -5
    optimal_tilt := 30
    optimal_azimuth := 180 }

/-- Modelled from the spec: the three-tier degradation chain of the
empirical estimator (not under `src/`).  `primary` is the outcome of the
primary empirical formula and `fallback` that of the simplified variant
(`calculate_simple_pv_energy`); `none` stands for "raised an exception".
The chain itself is a total function into `YieldResult`. -/
def empiricalEstimateChain (primary fallback : Option YieldResult) (ghi_annual : ℚ) :
    YieldResult :=
  match primary with
  | some r => r
  | none =>
      match fallback with
      | some r => r
      | none => lastResortEstimate ghi_annual

/-! ## Detailed physical model — aggregation
(`solar_prediction_system/core/solar_calculator.py::calculate_pv_energy`
and its near-duplicate `app.py::calculate_pv_energy`)

The hourly grid is the calendar year 2023 (8760 hours).  The series that
come out of `pvlib` (plane-of-array irradiance before clipping, ground
diffuse, cell temperature) are parameters; steps 7–11 of the source
(clip/fill, bifacial gain, temperature clamp, efficiency product,
summation, `groupby(month)`) are embedded concretely. -/

/-- Number of hours in the simulated year
(`pd.date_range('2023-01-01', '2023-12-31 23:00:00', freq='H')`). -/
def hoursInYear : ℕ := 8760

/-- Calendar month (1–12) of hour `h` (0-based) of the non-leap year
2023: month boundaries fall at the cumulative month lengths × 24. -/
def monthOfHour (h : ℕ) : ℕ :=
  if h < 744 then 1        -- Jan (31 days)
  else if h < 1416 then 2  -- Feb (28)
  else if h < 2160 then 3  -- Mar (31)
  else if h < 2880 then 4  -- Apr (30)
  else if h < 3624 then 5  -- May (31)
  else if h < 4344 then 6  -- Jun (30)
  else if h < 5088 then 7  -- Jul (31)
  else if h < 5832 then 8  -- Aug (31)
  else if h < 6552 then 9  -- Sep (30)
  else if h < 7296 then 10 -- Oct (31)
  else if h < 8016 then 11 -- Nov (30)
  else 12                  -- Dec (31)

/-- The per-hour system configuration knobs used by steps 7–11. -/
structure SystemConfig where
  efficiency : ℚ
  inverter_efficiency : ℚ
  losses : ℚ
  bifacial_factor : ℚ
  deriving Repr, DecidableEq

/-- The source's default system configuration
(`Config.DEFAULT_SYSTEM_EFFICIENCY = 0.85` …, `bifacial_factor = 0`). -/
def defaultSystemConfig : SystemConfig :=
  { efficiency := 17/20, inverter_efficiency := 24/25, losses := 7/50, bifacial_factor := 0 }

/-- Step 7/`poa_global` of the source:
`poa_irrad['poa_global'].fillna(0).clip(min=0)` plus the bifacial rear
gain `poa_ground_diffuse * bifacial_factor` when `bifacial_factor > 0`.
`poaRaw h` is the (opaque) `pvlib` plane-of-array value at hour `h`,
`groundDiffuse h` the (opaque) `get_ground_diffuse` value. -/
def poaGlobal (cfg : SystemConfig) (poaRaw groundDiffuse : ℕ → ℚ) (h : ℕ) : ℚ :=
  let base := max 0 (poaRaw h)
  if 0 < cfg.bifacial_factor then base + groundDiffuse h * cfg.bifacial_factor else base

/-- Step 8: `temp_factor = (1 - 0.004*(temp_cell - 25)).clip(min=0.7, max=1.1)`;
`tempCell h` is the (opaque) cell-temperature value at hour `h`. -/
def tempFactor (tempCell : ℕ → ℚ) (h : ℕ) : ℚ :=
  min (11/10) (max (7/10) (1 - (1/250) * (tempCell h - 25)))

/-- Steps 9–10: `hourly_energy = poa_global * total_efficiency / 1000`
with `total_efficiency = efficiency * inverter_efficiency * (1 - losses)
* temp_factor`. -/
def hourlyEnergy (cfg : SystemConfig) (poaRaw groundDiffuse tempCell : ℕ → ℚ) (h : ℕ) : ℚ :=
  poaGlobal cfg poaRaw groundDiffuse h *
    (cfg.efficiency * cfg.inverter_efficiency * (1 - cfg.losses) * tempFactor tempCell h) /
    1000

/-- Step 11: `annual_energy = hourly_energy.sum()` (before the final
`round(·, 1)`). -/
def annualEnergyExact (cfg : SystemConfig) (poaRaw groundDiffuse tempCell : ℕ → ℚ) : ℚ :=
  ∑ h in Finset.range hoursInYear, hourlyEnergy cfg poaRaw groundDiffuse tempCell h

/-- Step 11: `monthly_energy = hourly_energy.groupby(times.month).sum()`
(one entry per month 1–12, in month order, as pandas returns it). -/
def monthlyEnergyList (cfg : SystemConfig) (poaRaw groundDiffuse tempCell : ℕ → ℚ) : List ℚ :=
  (List.range 12).map (fun m =>
    ∑ h in (Finset.range hoursInYear).filter (fun h => monthOfHour h = m + 1),
      hourlyEnergy cfg poaRaw groundDiffuse tempCell h)

/-- `find_optimal_angles` (identical in `solar_calculator.py`,
`optimization.py::find_optimal_angles_simple` and `app.py`):
`optimal_tilt = round(abs(lat)*0.76 + 3.1, 1)`,
`optimal_azimuth = 180 if lat >= 0 else 0`. -/
def findOptimalAngles (lat : ℚ) : ℚ × ℚ :=
  (pyRound1 (|lat| * (19/25) + 31/10), if 0 ≤ lat then 180 else 0)

/-- The `YieldResult`-shaped dict returned by `calculate_pv_energy`
(step 12; the `'hourly_energy'` list is omitted as presentation data):
`annual_energy` rounded to one decimal, monthly sums unrounded,
`temp_effect = round((temp_factor.mean() - 1)*100, 2)`. -/
def calculatePvEnergyResult (lat : ℚ) (cfg : SystemConfig)
    (poaRaw groundDiffuse tempCell : ℕ → ℚ) : YieldResult :=
  { annual_energy := pyRound1 (annualEnergyExact cfg poaRaw groundDiffuse tempCell)
    monthly_energy := monthlyEnergyList cfg poaRaw groundDiffuse tempCell
    temp_effect :=
      pyRound2 (((∑ h in Finset.range hoursInYear, tempFactor tempCell h) /
        (hoursInYear : ℚ) - 1) * 100)
    optimal_tilt := (findOptimalAngles lat).1
    optimal_azimuth := (findOptimalAngles lat).2 }

/-- A concrete plane-of-array input series: a single lit hour (≈57 W/m²
at hour 4000, a dawn-level value) and darkness otherwise — the kind of
series the synthetic-irradiance pipeline produces for a minuscule annual
GHI. -/
def poaSingleHour : ℕ → ℚ := fun h => if h = 4000 then 125000/2193 else 0

/-- The all-zero series (no ground-reflected irradiance). -/
def zeroSeries : ℕ → ℚ := fun _ => 0

/-- Constant 25 °C cell temperature (no temperature derate). -/
def constTemp25 : ℕ → ℚ := fun _ => 25

/-! ## Angle matrix (`solar_calculator.py::calculate_angle_matrix`,
`config.py::OPTIMIZATION_TILT_RANGE / OPTIMIZATION_AZIMUTH_RANGE`) -/

/-- Python `range(start, stop, step)` for a positive step. -/
def pythonRange (start stop step : ℕ) : List ℕ :=
  (List.range ((stop - start + step - 1) / step)).map (fun i => start + step * i)

/-- `Config.OPTIMIZATION_TILT_RANGE = (0, 90, 5)` unpacked into `range`. -/
def optimizationTiltRange : List ℕ := pythonRange 0 90 5

/-- `Config.OPTIMIZATION_AZIMUTH_RANGE = (90, 271, 10)` unpacked into `range`. -/
def optimizationAzimuthRange : List ℕ := pythonRange 90 271 10

/-- `calculate_angle_matrix`: fills an
`np.zeros((len(tilt_range), len(azimuth_range)))` matrix with
`calculate_pv_energy(...)['annual_energy']` per cell.  The per-cell
energy (a full `pvlib` simulation) is opaque to the matrix shape and is
a parameter. -/
def calculateAngleMatrix (energy : ℕ → ℕ → ℚ) :
    List (List ℚ) × List ℕ × List ℕ :=
  (optimizationTiltRange.map (fun t => optimizationAzimuthRange.map (fun a => energy t a)),
    optimizationTiltRange, optimizationAzimuthRange)

/-! ## Weather fallback (`solar_prediction_system/core/weather_api.py`) -/

/-- `WeatherAPI.is_korea_region`: `KOREA_LAT_RANGE = (33.0, 38.0)`,
`KOREA_LON_RANGE = (126.0, 130.0)`, bounds inclusive. -/
def isKoreaRegion (lat lon : ℚ) : Bool :=
  33 ≤ lat ∧ lat ≤ 38 ∧ 126 ≤ lon ∧ lon ≤ 130

/-- `WeatherAPI.get_fallback_ghi`. -/
def getFallbackGhi (lat lon : ℚ) : ℚ :=
  if isKoreaRegion lat lon then
    if lat < 34.5 then 1350
    else if lat < 36 then 1280
    else if lat < 37.5 then 1220
    else 1180
  else 1200

/-- The fallback lookup as the specification words it: "Korea banded by
latitude: <34.5°→1350, <36.0°→1280, <37.5°→1220, else→1180; non-Korea
default 1200", with the Korea region of the config box. -/
def getFallbackGhiSpec (lat lon : ℚ) : ℚ :=
  if 33 ≤ lat ∧ lat ≤ 38 ∧ 126 ≤ lon ∧ lon ≤ 130 then
    if lat < 69/2 then 1350 else if lat < 36 then 1280 else if lat < 75/2 then 1220 else 1180
  else 1200

/-! ## Helper lemmas -/

/-- Round-half-even never moves a value by more than `1/2`. -/
theorem roundHalfEven_dist (x : ℚ) : |(roundHalfEven x : ℚ) - x| ≤ 1/2 := by
  have h0 : ((⌊x⌋ : ℤ) : ℚ) ≤ x := Int.floor_le x
  have h1 : x < (⌊x⌋ : ℚ) + 1 := Int.lt_floor_add_one x
  unfold roundHalfEven
  simp only []
  split_ifs with hr1 hr2 hev <;> rw [abs_le] <;> constructor <;> push_cast <;> linarith

/-- `pyRound1` moves a value by at most `1/20` (half of one decimal step). -/
theorem pyRound1_dist (x : ℚ) : |pyRound1 x - x| ≤ 1/20 := by
  have h := roundHalfEven_dist (10 * x)
  unfold pyRound1
  rw [abs_le] at h ⊢
  constructor <;> [linarith [h.1]; linarith [h.2]]

theorem roundHalfEven_nonneg {x : ℚ} (hx : 0 ≤ x) : 0 ≤ roundHalfEven x := by
  have h0 : (0 : ℤ) ≤ ⌊x⌋ ∨ True := Or.inr trivial
  have hfl : (0 : ℤ) ≤ ⌊x⌋ := by
    rw [Int.le_floor]; exact_mod_cast hx
  unfold roundHalfEven
  simp only []
  split_ifs <;> omega

theorem pyRound1_nonneg {x : ℚ} (hx : 0 ≤ x) : 0 ≤ pyRound1 x := by
  have := roundHalfEven_nonneg (show (0:ℚ) ≤ 10 * x by linarith)
  unfold pyRound1
  positivity

/-- Reading entry `i` of `(List.range n).map f`. -/
theorem getD_range_map (f : ℕ → ℚ) {n i : ℕ} (h : i < n) :
    ((List.range n).map f).getD i 0 = f i := by
  rw [List.getD_eq_getElem?_getD]
  simp [List.getElem?_range, h]

/-- Summing `(List.range n).map f` is the `Finset.range` sum. -/
theorem listSum_range_map (f : ℕ → ℚ) (n : ℕ) :
    ((List.range n).map f).sum = ∑ m in Finset.range n, f m := by
  induction n with
  | zero => simp
  | succ k ih => rw [List.range_succ, List.map_append, List.sum_append,
      Finset.sum_range_succ, ih]; simp

/-- If no adjacent pair of the scanned prefix crosses from negative to
non-negative, the scan returns `none`. -/
theorem paybackScan_eq_none (rest : List ℚ) : ∀ (prev : ℚ) (i : ℕ),
    (∀ j, j < rest.length →
      ¬((prev :: rest).getD j 0 < 0 ∧ 0 ≤ rest.getD j 0)) →
    paybackScan prev rest i = none := by
  induction rest with
  | nil => intro prev i _; rfl
  | cons c cs ih =>
      intro prev i h
      have h0 := h 0 (by simp)
      simp only [List.getD_cons_zero] at h0
      rw [paybackScan]
      rw [if_neg (by tauto)]
      exact ih c (i + 1) (fun j hj => by
        have := h (j + 1) (by simpa using Nat.succ_lt_succ hj)
        simpa using this)

/-- If the first negative-to-non-negative crossing of the scanned prefix
is at offset `k`, the scan interpolates there. -/
theorem paybackScan_first (rest : List ℚ) : ∀ (prev : ℚ) (i k : ℕ),
    1 ≤ i → k < rest.length →
    (prev :: rest).getD k 0 < 0 → 0 ≤ rest.getD k 0 →
    (∀ j, j < k → ¬((prev :: rest).getD j 0 < 0 ∧ 0 ≤ rest.getD j 0)) →
    paybackScan prev rest i =
      some (((i - 1 + k : ℕ) : ℚ) +
        (-(prev :: rest).getD k 0) /
          (rest.getD k 0 - (prev :: rest).getD k 0)) := by
  induction rest with
  | nil => intro prev i k _ hk; exact absurd hk (by simp)
  | cons c cs ih =>
      intro prev i k hi hk hneg hpos hfirst
      match k with
      | 0 =>
          simp only [List.getD_cons_zero] at hneg hpos ⊢
          rw [paybackScan]
          rw [if_pos ⟨hpos, hneg⟩]
          simp
      | k' + 1 =>
          have h0 := hfirst 0 (Nat.succ_pos k')
          simp only [List.getD_cons_zero] at h0
          rw [paybackScan]
          rw [if_neg (by tauto)]
          have hk' : k' < cs.length := by simpa using Nat.lt_of_succ_lt_succ hk
          have hres := ih c (i + 1) k' (by omega) hk'
            (by simpa using hneg) (by simpa using hpos)
            (fun j hj => by
              have := hfirst (j + 1) (Nat.succ_lt_succ hj)
              simpa using this)
          rw [hres]
          have harith : (i + 1 - 1 + k' : ℕ) = (i - 1 + (k' + 1) : ℕ) := by omega
          simp only [List.getD_cons_succ, harith]

/-! ## Claim theorems -/

/-- C7: for every latitude and longitude the weather fallback returns the
static regional value — for a Korea-region coordinate 1350 if lat < 34.5,
1280 if lat < 36.0, 1220 if lat < 37.5, else 1180; outside the Korea
region 1200.  Stated as: the implementation coincides with the
specification's lookup on all inputs. -/
theorem claim_C7_fallback_ghi (lat lon : ℚ) :
    getFallbackGhi lat lon = getFallbackGhiSpec lat lon := by
  unfold getFallbackGhi getFallbackGhiSpec isKoreaRegion
  norm_num

/-- C6 counterexample: the yield grid of `calculate_angle_matrix` has 18
tilt rows (`range(0, 90, 5)` from `OPTIMIZATION_TILT_RANGE = (0, 90, 5)`),
not `len(range(0, 91, 5)) = 19` as claimed. -/
theorem claim_C6_counterexample :
    (calculateAngleMatrix (fun _ _ => 0)).1.length = 18 ∧
    (pythonRange 0 91 5).length = 19 ∧
    (calculateAngleMatrix (fun _ _ => 0)).1.length ≠ (pythonRange 0 91 5).length := by
  refine ⟨by decide, by decide, by decide⟩

/-- C6 amended: the angle-matrix grid is `len(range(0,90,5)) = 18` tilt
rows covering `[0,85]` in 5-degree steps by `len(range(90,271,10)) = 19`
azimuth columns covering `[90,270]` in 10-degree steps, for every
per-cell energy function. -/
theorem claim_C6_angle_matrix_dims (energy : ℕ → ℕ → ℚ) :
    (calculateAngleMatrix energy).1.length = optimizationTiltRange.length ∧
    (calculateAngleMatrix energy).1.length = 18 ∧
    (∀ row ∈ (calculateAngleMatrix energy).1, row.length = 19) ∧
    (calculateAngleMatrix energy).2.1 =
      [0, 5, 10, 15, 20, 25, 30, 35, 40, 45, 50, 55, 60, 65, 70, 75, 80, 85] ∧
    (calculateAngleMatrix energy).2.2 =
      [90, 100, 110, 120, 130, 140, 150, 160, 170, 180,
        190, 200, 210, 220, 230, 240, 250, 260, 270] := by
  refine ⟨by simp [calculateAngleMatrix],
    by simp only [calculateAngleMatrix]; simp only [List.length_map]; decide, ?_,
    by simp only [calculateAngleMatrix]; decide,
    by simp only [calculateAngleMatrix]; decide⟩
  intro row hrow
  simp only [calculateAngleMatrix, List.mem_map] at hrow
  obtain ⟨t, _, rfl⟩ := hrow
  simp only [List.length_map]
  decide

/-- C6 amended, witness at a concrete energy function. -/
theorem claim_C6_angle_matrix_dims_witness :
    (calculateAngleMatrix (fun _ _ => (1 : ℚ))).1.length = 18 :=
  (claim_C6_angle_matrix_dims (fun _ _ => (1 : ℚ))).2.1

/-- Definitional step equation for `faCumulative`. -/
theorem faCumulative_succ (C R g : ℚ) (y : ℕ) :
    faCumulative C R g (y + 1)
      = faCumulative C R g y + (R * (1 - g) ^ (y + 1) - C * (1/100)) := by
  rw [faCumulative]

/-- Definitional step equation for `appCumulative`. -/
theorem appCumulative_succ (C R g : ℚ) (y : ℕ) :
    appCumulative C R g (y + 1)
      = appCumulative C R g y +
          (R * (1 - g) ^ (y + 1) - C * maintenanceRate (y + 1)) := by
  rw [appCumulative]

/-- C5 counterexample: in `FinancialAnalyzer._calculate_cash_flows`
(total_cost 100, zero revenue, zero degradation, lifetime 25) the cash
charged in year 11 is the flat `total_cost * 0.01 = 1`, not the claimed
tiered `total_cost * 0.015 = 1.5`. -/
theorem claim_C5_counterexample :
    (faCashFlows 100 0 0 25).getD 11 0 - (faCashFlows 100 0 0 25).getD 10 0
        = -(100 * (1/100)) ∧
    maintenanceRate 11 = 3/200 ∧
    (faCashFlows 100 0 0 25).getD 11 0 - (faCashFlows 100 0 0 25).getD 10 0
        ≠ 0 * (1 - 0) ^ 11 - 100 * maintenanceRate 11 := by
  have hd : (faCashFlows 100 0 0 25).getD 11 0 - (faCashFlows 100 0 0 25).getD 10 0
      = -(100 * (1/100)) := by
    rw [faCashFlows, getD_range_map _ (by norm_num), getD_range_map _ (by norm_num)]
    rw [show (11 : ℕ) = 10 + 1 from rfl, faCumulative_succ]
    ring
  have hm : maintenanceRate 11 = 3/200 := by norm_num [maintenanceRate]
  exact ⟨hd, hm, by rw [hd, hm]; norm_num⟩

/-- C5 amended: in the year-by-year simulation the net cash charged in
year `y` is `revenue*(1-g)^y` minus `total_cost` times the maintenance
rate — the tiered rate (1 %/1.5 %/2 %) in
`app.py::calculate_enhanced_financial_metrics`, but a flat 1 % in
`FinancialAnalyzer._calculate_cash_flows`. -/
theorem claim_C5_maintenance (C R g : ℚ) (lifetime y : ℕ)
    (h1 : 1 ≤ y) (h2 : y ≤ lifetime) :
    (appCashFlows C R g lifetime).getD y 0 - (appCashFlows C R g lifetime).getD (y - 1) 0
        = R * (1 - g) ^ y - C * maintenanceRate y ∧
    (faCashFlows C R g lifetime).getD y 0 - (faCashFlows C R g lifetime).getD (y - 1) 0
        = R * (1 - g) ^ y - C * (1/100) := by
  obtain ⟨y', rfl⟩ : ∃ y', y = y' + 1 := ⟨y - 1, by omega⟩
  constructor
  · rw [appCashFlows, getD_range_map _ (by omega), getD_range_map _ (by omega)]
    simp only [Nat.add_sub_cancel]
    rw [appCumulative]
    ring
  · rw [faCashFlows, getD_range_map _ (by omega), getD_range_map _ (by omega)]
    simp only [Nat.add_sub_cancel]
    rw [faCumulative]
    ring

/-- C5 amended, witness at year 11 of a lifetime-25 run. -/
theorem claim_C5_maintenance_witness :
    (1 ≤ 11 ∧ 11 ≤ 25) ∧
    (appCashFlows 100 7 0 25).getD 11 0 - (appCashFlows 100 7 0 25).getD (11 - 1) 0
      = 7 * (1 - 0) ^ 11 - 100 * maintenanceRate 11 :=
  ⟨⟨by norm_num, by norm_num⟩,
    (claim_C5_maintenance 100 7 0 25 11 (by norm_num) (by norm_num)).1⟩

/-- C4 amended: `app.py::calculate_enhanced_financial_metrics` computes
`smp_revenue = annual_production × smp_price` but
`rec_revenue = annual_production × rec_price` (no `/1000`, no weight),
while `app_railway.py::calculate_desktop_solar` computes
`smp_revenue = generation × smp_price` and
`rec_revenue = (generation/1000) × 1.5 × rec_price` with the REC weight
fixed at 1.5. -/
theorem claim_C4_revenue_formulas :
    (∀ (annual_energy system_size icpk ep g : ℚ) (lifetime : ℕ) (smp rec : ℚ),
      (calculateEnhancedFinancialMetrics annual_energy system_size icpk ep g
          lifetime smp rec).annual_smp_revenue
        = pyInt (system_size * annual_energy * smp) ∧
      (calculateEnhancedFinancialMetrics annual_energy system_size icpk ep g
          lifetime smp rec).annual_rec_revenue
        = pyInt (system_size * annual_energy * rec)) ∧
    (∀ (lat size tilt az smp rec : ℚ),
      (desktopCompute lat size tilt az smp rec).smp_revenue
        = roundHalfEven (desktopAdjustedGeneration lat size tilt az * smp) ∧
      (desktopCompute lat size tilt az smp rec).rec_revenue
        = roundHalfEven (desktopAdjustedGeneration lat size tilt az / 1000 * (3/2) * rec)) :=
  ⟨fun _ _ _ _ _ _ _ _ => ⟨rfl, rfl⟩, fun _ _ _ _ _ _ => ⟨rfl, rfl⟩⟩

/-- C4 counterexample: at `annual_energy = 1300`, `system_size = 3`,
`rec_price = 40` the analyzer's REC revenue is `3900 × 40 = 156000`,
whereas the claimed `(annual_production/1000) × rec_weight × rec_price`
is `156 × rec_weight` (= 234 at the source's weight 1.5). -/
theorem claim_C4_counterexample :
    (calculateEnhancedFinancialMetrics 1300 3 1800000 220 0 25 180 40).annual_rec_revenue
        = 156000 ∧
    pyInt ((3 * (1300 : ℚ) / 1000) * (3/2) * 40) = 234 ∧
    (156000 : ℤ) ≠ 234 := by
  refine ⟨?_, ?_, by norm_num⟩
  · have h : (calculateEnhancedFinancialMetrics 1300 3 1800000 220 0 25 180 40).annual_rec_revenue
        = pyInt ((3 : ℚ) * 1300 * 40) := rfl
    rw [h, show (3 : ℚ) * 1300 * 40 = ((156000 : ℤ) : ℚ) by norm_num]
    simp [pyInt]
  · rw [show (3 * (1300 : ℚ) / 1000) * (3/2) * 40 = ((234 : ℤ) : ℚ) by norm_num]
    simp [pyInt]

/-- If the first negative→non-negative crossing of adjacent entries is at
pair `(k, k+1)`, the payback computation interpolates there. -/
theorem payback_first_crossing (cf : List ℚ) (k : ℕ) (hk : k + 1 < cf.length)
    (ha : cf.getD k 0 < 0) (hb : 0 ≤ cf.getD (k + 1) 0)
    (hfirst : ∀ j, j < k → ¬(cf.getD j 0 < 0 ∧ 0 ≤ cf.getD (j + 1) 0)) :
    calculatePaybackPeriod cf
      = some ((k : ℚ) + (-(cf.getD k 0)) / (cf.getD (k + 1) 0 - cf.getD k 0)) := by
  match cf with
  | [] => simp at hk
  | c :: cs =>
      have hk' : k < cs.length := by simpa using hk
      have hscan := paybackScan_first cs c 1 k (le_refl 1) hk'
        ha (by simpa [List.getD_cons_succ] using hb)
        (fun j hj => by
          have := hfirst j hj
          simpa [List.getD_cons_succ] using this)
      rw [show calculatePaybackPeriod (c :: cs)
          = (match paybackScan c cs 1 with
             | some p => some p
             | none =>
                 if 0 ≤ (c :: cs).getLastD 0 then
                   some ((((c :: cs).length - 1 : ℕ) : ℚ))
                 else none) from rfl]
      rw [hscan]
      simp [List.getD_cons_succ]

/-- If no adjacent pair crosses from negative to non-negative, the payback
is `length - 1` when the last entry is non-negative and `none` otherwise. -/
theorem payback_no_crossing (cf : List ℚ) (hne : cf ≠ [])
    (h : ∀ j, j + 1 < cf.length → ¬(cf.getD j 0 < 0 ∧ 0 ≤ cf.getD (j + 1) 0)) :
    calculatePaybackPeriod cf
      = if 0 ≤ cf.getLastD 0 then some (((cf.length - 1 : ℕ) : ℚ)) else none := by
  match cf with
  | [] => exact absurd rfl hne
  | c :: cs =>
      have hscan := paybackScan_eq_none cs c 1 (fun j hj => by
        have := h j (by simpa using Nat.succ_lt_succ hj)
        simpa [List.getD_cons_succ] using this)
      rw [show calculatePaybackPeriod (c :: cs)
          = (match paybackScan c cs 1 with
             | some p => some p
             | none =>
                 if 0 ≤ (c :: cs).getLastD 0 then
                   some ((((c :: cs).length - 1 : ℕ) : ℚ))
                 else none) from rfl]
      rw [hscan]

/-- `appCumulative` with zero cost and zero degradation is `R * y`. -/
theorem appCumulative_zero_cost (R : ℚ) (y : ℕ) :
    appCumulative 0 R 0 y = R * y := by
  induction y with
  | zero => simp [appCumulative]
  | succ n ih => rw [appCumulative_succ, ih]; push_cast; ring

/-- Last entry of `(List.range (n+1)).map f`. -/
theorem getLastD_range_map (f : ℕ → ℚ) (n : ℕ) :
    ((List.range (n + 1)).map f).getLastD 0 = f n := by
  rw [List.range_succ, List.map_append]
  simp

/-- C1 amended: the payback period is the interpolated value at the first
index `i = k+1` with `cash_flows[i] ≥ 0` and `cash_flows[i-1] < 0` when
such an index exists (even if the final cumulative value is negative);
when none exists it is `lifetime` (= `len(cash_flows)-1`) if the final
cumulative value is non-negative — in particular the degenerate
`total_cost = 0` case yields `lifetime`, not 0 — and undefined
(`None`/`inf`) otherwise. -/
theorem claim_C1_payback_period (cf : List ℚ) (hne : cf ≠ []) :
    (∀ k, k + 1 < cf.length → cf.getD k 0 < 0 → 0 ≤ cf.getD (k + 1) 0 →
      (∀ j, j < k → ¬(cf.getD j 0 < 0 ∧ 0 ≤ cf.getD (j + 1) 0)) →
      calculatePaybackPeriod cf
        = some ((k : ℚ) + (-(cf.getD k 0)) / (cf.getD (k + 1) 0 - cf.getD k 0))) ∧
    ((∀ j, j + 1 < cf.length → ¬(cf.getD j 0 < 0 ∧ 0 ≤ cf.getD (j + 1) 0)) →
      calculatePaybackPeriod cf
        = if 0 ≤ cf.getLastD 0 then some (((cf.length - 1 : ℕ) : ℚ)) else none) :=
  ⟨fun k hk ha hb hf => payback_first_crossing cf k hk ha hb hf,
   fun h => payback_no_crossing cf hne h⟩

/-- C1 amended, witness: `cash_flows = [-100, -40, 20]` crosses at index
2, so payback is `1 + 40/60 = 5/3`. -/
theorem claim_C1_payback_period_witness :
    calculatePaybackPeriod [-100, -40, 20] = some (5/3) := by
  have h := (claim_C1_payback_period [-100, -40, 20] (by simp)).1 1 (by norm_num)
    (by norm_num [List.getD_cons_succ, List.getD_cons_zero])
    (by norm_num [List.getD_cons_succ, List.getD_cons_zero])
    (fun j hj => by
      have hj0 : j = 0 := by omega
      subst hj0
      norm_num [List.getD_cons_succ, List.getD_cons_zero])
  rw [h]
  norm_num [List.getD_cons_succ, List.getD_cons_zero]

/-- C1 counterexample: with `total_cost = 0` (the degenerate case —
`cash_flows[0] = 0`, cumulative non-negative at year 0) the analyzer
returns `lifetime = 25`, not the claimed `0`. -/
theorem claim_C1_counterexample :
    (appCashFlows 0 1000 0 25).getD 0 0 = 0 ∧
    calculatePaybackPeriod (appCashFlows 0 1000 0 25) = some 25 ∧
    (some (25 : ℚ) : Option ℚ) ≠ some 0 := by
  have hget : ∀ j, j < 26 → (appCashFlows 0 1000 0 25).getD j 0 = 1000 * j := by
    intro j hj
    rw [appCashFlows, getD_range_map _ hj, appCumulative_zero_cost]
  have hlen : (appCashFlows 0 1000 0 25).length = 26 := by simp [appCashFlows]
  refine ⟨by rw [hget 0 (by norm_num)]; norm_num, ?_, by simp⟩
  rw [payback_no_crossing _
    (by intro hnil; rw [hnil] at hlen; simp at hlen)
    (by
      intro j hj
      rw [hlen] at hj
      rw [hget j (by omega)]
      rintro ⟨hneg, -⟩
      have : (0 : ℚ) ≤ 1000 * j := by positivity
      linarith)]
  rw [show appCashFlows 0 1000 0 25 = (List.range (25 + 1)).map (appCumulative 0 1000 0)
      from rfl, getLastD_range_map, appCumulative_zero_cost]
  rw [if_pos (by norm_num)]
  rw [List.length_map, List.length_range]
  norm_num

/-- C8 amended: when the payback period arises from the first sign change
at pair `(k, k+1)`, `0 ≤ cash_flows[ceil(payback)]` always holds, and
`cash_flows[floor(payback)] < 0` holds whenever `cash_flows[k+1]` is
strictly positive (at an exact-zero crossing the payback equals `k+1` and
the floor entry is 0).  The finite fallback value `lifetime` returned
without a sign change does not bracket. -/
theorem claim_C8_payback_brackets (cf : List ℚ) (k : ℕ) (hk : k + 1 < cf.length)
    (ha : cf.getD k 0 < 0) (hb : 0 ≤ cf.getD (k + 1) 0)
    (hfirst : ∀ j, j < k → ¬(cf.getD j 0 < 0 ∧ 0 ≤ cf.getD (j + 1) 0)) :
    ∃ p : ℚ, calculatePaybackPeriod cf = some p ∧
      0 ≤ cf.getD ⌈p⌉.toNat 0 ∧
      (0 < cf.getD (k + 1) 0 → cf.getD ⌊p⌋.toNat 0 < 0) := by
  have hba : 0 < cf.getD (k + 1) 0 - cf.getD k 0 := by linarith
  set a := cf.getD k 0 with hadef
  set b := cf.getD (k + 1) 0 with hbdef
  set t : ℚ := (-a) / (b - a) with htdef
  have ht0 : 0 < t := div_pos (by linarith) hba
  have ht1 : t ≤ 1 := by rw [div_le_one hba]; linarith
  refine ⟨(k : ℚ) + t, payback_first_crossing cf k hk ha hb hfirst, ?_, ?_⟩
  · have hceil : ⌈(k : ℚ) + t⌉ = (k : ℤ) + 1 := by
      rw [Int.ceil_eq_iff]
      constructor <;> push_cast <;> linarith
    rw [hceil, show ((k : ℤ) + 1).toNat = k + 1 by omega]
    exact hb
  · intro hbpos
    have ht1' : t < 1 := by rw [div_lt_one hba]; linarith
    have hfloor : ⌊(k : ℚ) + t⌋ = (k : ℤ) := by
      rw [Int.floor_eq_iff]
      constructor <;> push_cast <;> linarith
    rw [hfloor, Int.toNat_natCast]
    exact ha

/-- C8 amended, witness: `cash_flows = [-100, -50, 10]`, crossing at pair
`(1, 2)`. -/
theorem claim_C8_payback_brackets_witness :
    ∃ p : ℚ, calculatePaybackPeriod [-100, -50, 10] = some p ∧
      0 ≤ ([-100, -50, 10] : List ℚ).getD ⌈p⌉.toNat 0 ∧
      (0 < ([-100, -50, 10] : List ℚ).getD (1 + 1) 0 →
        ([-100, -50, 10] : List ℚ).getD ⌊p⌋.toNat 0 < 0) :=
  claim_C8_payback_brackets [-100, -50, 10] 1 (by norm_num)
    (by norm_num [List.getD_cons_succ, List.getD_cons_zero])
    (by norm_num [List.getD_cons_succ, List.getD_cons_zero])
    (fun j hj => by
      have hj0 : j = 0 := by omega
      subst hj0
      norm_num [List.getD_cons_succ, List.getD_cons_zero])

/-- C8 counterexample: in the zero-cost run the payback is the finite
fallback value 25, yet `cash_flows[floor(25)] = 50000` is not negative,
so a finite payback need not bracket a sign change. -/
theorem claim_C8_counterexample :
    calculatePaybackPeriod (appCashFlows 0 2000 0 25) = some 25 ∧
    ¬((appCashFlows 0 2000 0 25).getD ⌊(25 : ℚ)⌋.toNat 0 < 0) := by
  have hget : ∀ j, j < 26 → (appCashFlows 0 2000 0 25).getD j 0 = 2000 * j := by
    intro j hj
    rw [appCashFlows, getD_range_map _ hj, appCumulative_zero_cost]
  have hlen : (appCashFlows 0 2000 0 25).length = 26 := by simp [appCashFlows]
  constructor
  · rw [payback_no_crossing _
      (by intro hnil; rw [hnil] at hlen; simp at hlen)
      (by
        intro j hj
        rw [hlen] at hj
        rw [hget j (by omega)]
        rintro ⟨hneg, -⟩
        have : (0 : ℚ) ≤ 2000 * j := by positivity
        linarith)]
    rw [show appCashFlows 0 2000 0 25 = (List.range (25 + 1)).map (appCumulative 0 2000 0)
        from rfl, getLastD_range_map, appCumulative_zero_cost]
    rw [if_pos (by norm_num)]
    rw [List.length_map, List.length_range]
    norm_num
  · have hfl25 : (⌊(25 : ℚ)⌋ : ℤ) = 25 := by norm_num
    rw [hfl25, show ((25 : ℤ)).toNat = 25 from rfl, hget 25 (by norm_num)]
    norm_num

/-! ### Desktop-calculator helpers -/

/-- The normalised system size is positive (and at most 10000). -/
theorem normSize_pos (s : ℚ) : 0 < normSize s ∧ normSize s ≤ 10000 := by
  unfold normSize
  simp only []
  split_ifs with h1 h2 h2 <;> first | (push_neg at h2; exact h2) | norm_num

/-- Out-of-range sizes are silently replaced by the default 30. -/
theorem normSize_out {s : ℚ} (h : s ≤ 0 ∨ 10000 < s) : normSize s = 30 := by
  unfold normSize
  simp only []
  split_ifs <;> rfl

/-- Out-of-range tilts are silently replaced by the default 30. -/
theorem normTilt_out {t : ℚ} (h : t < 0 ∨ 90 < t) : normTilt t = 30 := by
  unfold normTilt
  simp only []
  split_ifs <;> rfl

/-- Out-of-range azimuths are silently replaced by the default 180. -/
theorem normAzimuth_out {a : ℚ} (h : a < 0 ∨ 360 < a) : normAzimuth a = 180 := by
  unfold normAzimuth
  simp only []
  split_ifs <;> rfl

/-- In-range values pass the normalisation untouched. -/
theorem normSize_30 : normSize 30 = 30 := by norm_num [normSize]

theorem normTilt_30 : normTilt 30 = 30 := by norm_num [normTilt]

theorem normAzimuth_180 : normAzimuth 180 = 180 := by norm_num [normAzimuth]

/-- C9 counterexample: a call with negative system size, tilt 100 > 90
and azimuth 400 > 360 succeeds (no error is surfaced) and silently
computes with the defaults size 30, tilt 30, azimuth 180. -/
theorem claim_C9_counterexample :
    (calculateDesktopSolar 36 127 (-5) 100 400 100 1000).isSome = true ∧
    calculateDesktopSolar 36 127 (-5) 100 400 100 1000
      = calculateDesktopSolar 36 127 30 30 180 100 1000 := by
  unfold calculateDesktopSolar
  rw [if_neg (by norm_num), if_neg (by norm_num)]
  rw [normSize_out (by norm_num), normTilt_out (by norm_num), normAzimuth_out (by norm_num),
    normSize_30, normTilt_30, normAzimuth_180]
  exact ⟨rfl, rfl⟩

/-- C9 amended: with a non-falsy location, out-of-bounds tilt/azimuth and
non-positive (or > 10000) system size never surface an error: the values
are silently replaced by the defaults (size 30, tilt 30, azimuth 180) and
the computation proceeds successfully.  Only a falsy location (or a
non-numeric input, whose `float()` conversion fails) produces an error
result. -/
theorem claim_C9_silent_defaults (lat lng size tilt az smp rec : ℚ)
    (hlat : lat ≠ 0) (hlng : lng ≠ 0)
    (hsize : size ≤ 0 ∨ 10000 < size) (htilt : tilt < 0 ∨ 90 < tilt)
    (haz : az < 0 ∨ 360 < az) :
    calculateDesktopSolar lat lng size tilt az smp rec
      = calculateDesktopSolar lat lng 30 30 180 smp rec ∧
    (calculateDesktopSolar lat lng size tilt az smp rec).isSome = true := by
  have hguard : ¬(lat = 0 ∨ lng = 0) := by tauto
  unfold calculateDesktopSolar
  rw [normSize_out hsize, normTilt_out htilt, normAzimuth_out haz,
    normSize_30, normTilt_30, normAzimuth_180]
  rw [if_neg hguard]
  exact ⟨rfl, rfl⟩

/-- C9 amended, witness. -/
theorem claim_C9_silent_defaults_witness :
    calculateDesktopSolar 40 127 (-3) 91 (-10) 50 600
      = calculateDesktopSolar 40 127 30 30 180 50 600 :=
  (claim_C9_silent_defaults 40 127 (-3) 91 (-10) 50 600
    (by norm_num) (by norm_num) (by norm_num) (by norm_num) (by norm_num)).1

/-- The `payback_years` field of the desktop computation, spelled out. -/
theorem desktopCompute_payback_years (lat size tilt az smp rec : ℚ) :
    (desktopCompute lat size tilt az smp rec).payback_years
      = (if (if 0 < desktopAdjustedGeneration lat size tilt az * smp +
                desktopAdjustedGeneration lat size tilt az / 1000 * (3/2) * rec -
                size * 12000 then
              size * 2000000 /
                (desktopAdjustedGeneration lat size tilt az * smp +
                  desktopAdjustedGeneration lat size tilt az / 1000 * (3/2) * rec -
                  size * 12000)
            else 999) < 50 then
          pyRound1 (if 0 < desktopAdjustedGeneration lat size tilt az * smp +
                desktopAdjustedGeneration lat size tilt az / 1000 * (3/2) * rec -
                size * 12000 then
              size * 2000000 /
                (desktopAdjustedGeneration lat size tilt az * smp +
                  desktopAdjustedGeneration lat size tilt az / 1000 * (3/2) * rec -
                  size * 12000)
            else 999)
        else 999/10) := rfl

/-- C10: every successful `calculate_desktop_solar` call returns a
`payback_years` that is either exactly 99.9 (covering both the
non-positive-revenue sentinel 999 and any computed payback ≥ 50) or the
one-decimal rounding of a positive payback below 50 — never null or
infinite. -/
theorem claim_C10_payback_years (lat lng size tilt az smp rec : ℚ) (r : DesktopResult)
    (hr : calculateDesktopSolar lat lng size tilt az smp rec = some r) :
    r.payback_years = 999/10 ∨
    ∃ p : ℚ, 0 < p ∧ p < 50 ∧ r.payback_years = pyRound1 p := by
  unfold calculateDesktopSolar at hr
  by_cases hg : lat = 0 ∨ lng = 0
  · rw [if_pos hg] at hr; exact absurd hr (by simp)
  · rw [if_neg hg] at hr
    have hreq := Option.some.injEq _ _ ▸ hr
    obtain rfl : desktopCompute lat (normSize size) (normTilt tilt) (normAzimuth az)
        (normSmp smp) (normRec rec) = r := by
      exact Option.some_injective _ hr
    rw [desktopCompute_payback_years]
    set A := desktopAdjustedGeneration lat (normSize size) (normTilt tilt) (normAzimuth az)
    set REV := A * normSmp smp + A / 1000 * (3/2) * normRec rec - normSize size * 12000
    by_cases hrev : 0 < REV
    · rw [if_pos hrev]
      by_cases hlt : normSize size * 2000000 / REV < 50
      · rw [if_pos hlt]
        refine Or.inr ⟨normSize size * 2000000 / REV, ?_, hlt, rfl⟩
        have hS := (normSize_pos size).1
        positivity
      · rw [if_neg hlt]; exact Or.inl rfl
    · rw [if_neg hrev]
      rw [if_neg (by norm_num)]
      exact Or.inl rfl

/-- C10 witness at a concrete successful call. -/
theorem claim_C10_payback_years_witness :
    (desktopCompute 100 (normSize 30) (normTilt 30) (normAzimuth 180)
        (normSmp 100) (normRec 1000)).payback_years = 999/10 ∨
    ∃ p : ℚ, 0 < p ∧ p < 50 ∧
      (desktopCompute 100 (normSize 30) (normTilt 30) (normAzimuth 180)
          (normSmp 100) (normRec 1000)).payback_years = pyRound1 p :=
  claim_C10_payback_years 100 100 30 30 180 100 1000 _
    (by unfold calculateDesktopSolar; rw [if_neg (by norm_num)])

/-- C2 (modelled from the spec, see `empiricalEstimateChain`): the
three-tier chain is a total function into `YieldResult`; it returns the
primary result when the primary formula succeeds, the simplified
fallback's result when only the primary fails, and when both fail the
deterministic last resort with `annual_energy = ghi_annual × 0.15`, a
flat 12-month split, `temp_effect = -5.0`, `optimal_tilt = 30`,
`optimal_azimuth = 180`. -/
theorem claim_C2_total_estimator (ghi : ℚ) (primary fallback : Option YieldResult) :
    (∀ r, primary = some r → empiricalEstimateChain primary fallback ghi = r) ∧
    (∀ r, primary = none → fallback = some r →
      empiricalEstimateChain primary fallback ghi = r) ∧
    (primary = none → fallback = none →
      empiricalEstimateChain primary fallback ghi = lastResortEstimate ghi) ∧
    (lastResortEstimate ghi).annual_energy = ghi * (3/20) ∧
    (lastResortEstimate ghi).monthly_energy = List.replicate 12 (ghi * (3/20) / 12) ∧
    (lastResortEstimate ghi).monthly_energy.length = 12 ∧
    (lastResortEstimate ghi).temp_effect = -5 ∧
    (lastResortEstimate ghi).optimal_tilt = 30 ∧
    (lastResortEstimate ghi).optimal_azimuth = 180 := by
  refine ⟨?_, ?_, ?_, rfl, rfl, by simp [lastResortEstimate], rfl, rfl, rfl⟩
  · rintro r rfl; rfl
  · rintro r rfl rfl; rfl
  · rintro rfl rfl; rfl

/-- C2 witness: both tiers failing on `ghi_annual = 1200` yields the last
resort, whose annual energy is `1200 × 0.15 = 180`. -/
theorem claim_C2_total_estimator_witness :
    empiricalEstimateChain none none 1200 = lastResortEstimate 1200 ∧
    (lastResortEstimate (1200 : ℚ)).annual_energy = 1200 * (3/20) :=
  ⟨(claim_C2_total_estimator 1200 none none).2.2.1 rfl rfl,
    (claim_C2_total_estimator 1200 none none).2.2.2.1⟩

/-! ### Detailed-model aggregation lemmas -/

set_option maxHeartbeats 1600000 in
theorem monthOfHour_pos (h : ℕ) : 1 ≤ monthOfHour h := by
  unfold monthOfHour; split_ifs <;> omega

set_option maxHeartbeats 1600000 in
theorem monthOfHour_le (h : ℕ) : monthOfHour h ≤ 12 := by
  unfold monthOfHour; split_ifs <;> omega

/-- Summing the monthly `groupby` sums recovers the total hourly sum:
every hour belongs to exactly one of the twelve months. -/
theorem sum_monthly_eq_sum_hourly (e : ℕ → ℚ) :
    ((List.range 12).map (fun m =>
        ∑ h in (Finset.range hoursInYear).filter (fun h => monthOfHour h = m + 1),
          e h)).sum
      = ∑ h in Finset.range hoursInYear, e h := by
  rw [listSum_range_map]
  have hstep : ∀ m ∈ Finset.range 12,
      ∑ h in (Finset.range hoursInYear).filter (fun h => monthOfHour h = m + 1), e h
        = ∑ h in (Finset.range hoursInYear).filter (fun h => monthOfHour h - 1 = m), e h := by
    intro m _
    apply Finset.sum_congr
    · apply Finset.filter_congr
      intro h _
      have := monthOfHour_pos h
      constructor <;> intro <;> omega
    · intro _ _; rfl
  rw [Finset.sum_congr rfl hstep]
  exact Finset.sum_fiberwise_of_maps_to (fun h _ => by
    have h1 := monthOfHour_pos h
    have h2 := monthOfHour_le h
    simp only [Finset.mem_range]
    omega) e

theorem tempFactor_pos (tc : ℕ → ℚ) (h : ℕ) : 0 < tempFactor tc h := by
  unfold tempFactor
  exact lt_min (by norm_num) (lt_of_lt_of_le (by norm_num) (le_max_left _ _))

theorem poaGlobal_nonneg (cfg : SystemConfig) (poaRaw groundDiffuse : ℕ → ℚ)
    (hgd : ∀ h, 0 ≤ groundDiffuse h) (h : ℕ) :
    0 ≤ poaGlobal cfg poaRaw groundDiffuse h := by
  unfold poaGlobal
  simp only []
  split_ifs with hb
  · have := hgd h
    have : 0 ≤ groundDiffuse h * cfg.bifacial_factor := mul_nonneg (hgd h) hb.le
    have : (0 : ℚ) ≤ max 0 (poaRaw h) := le_max_left 0 _
    linarith
  · exact le_max_left 0 _

theorem hourlyEnergy_nonneg (cfg : SystemConfig) (poaRaw groundDiffuse tempCell : ℕ → ℚ)
    (heff : 0 ≤ cfg.efficiency) (hinv : 0 ≤ cfg.inverter_efficiency)
    (hloss : cfg.losses ≤ 1) (hgd : ∀ h, 0 ≤ groundDiffuse h) (h : ℕ) :
    0 ≤ hourlyEnergy cfg poaRaw groundDiffuse tempCell h := by
  unfold hourlyEnergy
  apply div_nonneg _ (by norm_num)
  exact mul_nonneg (poaGlobal_nonneg cfg poaRaw groundDiffuse hgd h)
    (mul_nonneg (mul_nonneg (mul_nonneg heff hinv) (by linarith))
      (tempFactor_pos tempCell h).le)

/-- C3 amended: for the detailed model, `monthly_energy` has exactly 12
entries and all returned energy values are non-negative (for a
configuration with non-negative efficiencies, `losses ≤ 1` and
non-negative ground-diffuse irradiance, as the source always has);
`sum(monthly_energy)` equals the pre-rounding annual energy *exactly*,
so it matches the returned `annual_energy` (rounded to one decimal)
within 0.05 absolute — which is within 0.1 relative tolerance whenever
`sum(monthly_energy) ≥ 0.5`, but not for smaller yields. -/
theorem claim_C3_monthly_invariant (lat : ℚ) (cfg : SystemConfig)
    (poaRaw groundDiffuse tempCell : ℕ → ℚ)
    (heff : 0 ≤ cfg.efficiency) (hinv : 0 ≤ cfg.inverter_efficiency)
    (hloss : cfg.losses ≤ 1) (hgd : ∀ h, 0 ≤ groundDiffuse h) :
    (calculatePvEnergyResult lat cfg poaRaw groundDiffuse tempCell).monthly_energy.length
        = 12 ∧
    (∀ x ∈ (calculatePvEnergyResult lat cfg poaRaw groundDiffuse tempCell).monthly_energy,
      0 ≤ x) ∧
    0 ≤ (calculatePvEnergyResult lat cfg poaRaw groundDiffuse tempCell).annual_energy ∧
    (calculatePvEnergyResult lat cfg poaRaw groundDiffuse tempCell).monthly_energy.sum
        = annualEnergyExact cfg poaRaw groundDiffuse tempCell ∧
    |(calculatePvEnergyResult lat cfg poaRaw groundDiffuse tempCell).annual_energy -
        (calculatePvEnergyResult lat cfg poaRaw groundDiffuse tempCell).monthly_energy.sum|
      ≤ 1/20 ∧
    (1/2 ≤ (calculatePvEnergyResult lat cfg poaRaw groundDiffuse tempCell).monthly_energy.sum →
      |(calculatePvEnergyResult lat cfg poaRaw groundDiffuse tempCell).annual_energy -
          (calculatePvEnergyResult lat cfg poaRaw groundDiffuse tempCell).monthly_energy.sum|
        ≤ (1/10) *
          (calculatePvEnergyResult lat cfg poaRaw groundDiffuse tempCell).monthly_energy.sum) := by
  have hnn : ∀ h, 0 ≤ hourlyEnergy cfg poaRaw groundDiffuse tempCell h :=
    hourlyEnergy_nonneg cfg poaRaw groundDiffuse tempCell heff hinv hloss hgd
  have hsum : (calculatePvEnergyResult lat cfg poaRaw groundDiffuse tempCell).monthly_energy.sum
      = annualEnergyExact cfg poaRaw groundDiffuse tempCell := by
    show (monthlyEnergyList cfg poaRaw groundDiffuse tempCell).sum = _
    unfold monthlyEnergyList annualEnergyExact
    exact sum_monthly_eq_sum_hourly (hourlyEnergy cfg poaRaw groundDiffuse tempCell)
  have hanng : 0 ≤ annualEnergyExact cfg poaRaw groundDiffuse tempCell :=
    Finset.sum_nonneg (fun h _ => hnn h)
  have hdist : |(calculatePvEnergyResult lat cfg poaRaw groundDiffuse tempCell).annual_energy -
      (calculatePvEnergyResult lat cfg poaRaw groundDiffuse tempCell).monthly_energy.sum|
        ≤ 1/20 := by
    rw [hsum]
    show |pyRound1 (annualEnergyExact cfg poaRaw groundDiffuse tempCell) - _| ≤ 1/20
    exact pyRound1_dist _
  refine ⟨by simp [calculatePvEnergyResult, monthlyEnergyList], ?_, ?_, hsum, hdist, ?_⟩
  · intro x hx
    simp only [calculatePvEnergyResult, monthlyEnergyList, List.mem_map] at hx
    obtain ⟨m, -, rfl⟩ := hx
    exact Finset.sum_nonneg (fun h _ => hnn h)
  · exact pyRound1_nonneg hanng
  · intro hge
    rw [hsum] at hge ⊢
    rw [hsum] at hdist
    have : (1/20 : ℚ) ≤ (1/10) * annualEnergyExact cfg poaRaw groundDiffuse tempCell := by
      linarith
    linarith [hdist]

/-- C3 amended, witness: the all-dark series with the default config. -/
theorem claim_C3_monthly_invariant_witness :
    (calculatePvEnergyResult 36.5 defaultSystemConfig zeroSeries zeroSeries
        constTemp25).monthly_energy.length = 12 ∧
    0 ≤ (calculatePvEnergyResult 36.5 defaultSystemConfig zeroSeries zeroSeries
        constTemp25).annual_energy :=
  ⟨(claim_C3_monthly_invariant 36.5 defaultSystemConfig zeroSeries zeroSeries constTemp25
      (by norm_num [defaultSystemConfig]) (by norm_num [defaultSystemConfig])
      (by norm_num [defaultSystemConfig]) (fun _ => le_refl 0)).1,
   (claim_C3_monthly_invariant 36.5 defaultSystemConfig zeroSeries zeroSeries constTemp25
      (by norm_num [defaultSystemConfig]) (by norm_num [defaultSystemConfig])
      (by norm_num [defaultSystemConfig]) (fun _ => le_refl 0)).2.2.1⟩

/-- Round-half-even is the floor when the fractional part is below 1/2. -/
theorem roundHalfEven_eq_floor (x : ℚ) (h : x - ⌊x⌋ < 1/2) :
    roundHalfEven x = ⌊x⌋ := by
  unfold roundHalfEven
  simp only []
  rw [if_pos h]

/-- On the single-lit-hour series, each hour's energy under the default
configuration is `1/25` kWh at hour 4000 and zero elsewhere. -/
theorem hourlyEnergy_single (h : ℕ) :
    hourlyEnergy defaultSystemConfig poaSingleHour zeroSeries constTemp25 h
      = if h = 4000 then 1/25 else 0 := by
  have htf : tempFactor constTemp25 h = 1 := by
    unfold tempFactor constTemp25
    norm_num [max_def, min_def]
  unfold hourlyEnergy poaGlobal
  rw [htf]
  rw [if_neg (by norm_num [defaultSystemConfig])]
  unfold poaSingleHour defaultSystemConfig
  by_cases hh : h = 4000
  · rw [if_pos hh, if_pos hh, max_eq_right (by norm_num)]
    norm_num
  · rw [if_neg hh, if_neg hh, max_eq_right (by norm_num)]
    norm_num

/-- Annual energy of the single-lit-hour run. -/
theorem annualEnergyExact_single :
    annualEnergyExact defaultSystemConfig poaSingleHour zeroSeries constTemp25 = 1/25 := by
  unfold annualEnergyExact
  rw [Finset.sum_congr rfl (fun h _ => hourlyEnergy_single h)]
  rw [Finset.sum_ite_eq' (Finset.range hoursInYear) 4000 (fun _ => (1/25 : ℚ))]
  rw [if_pos (by norm_num [hoursInYear, Finset.mem_range])]

/-- C3 counterexample: a run whose exact annual energy is `0.04` returns
`annual_energy = 0.0` (one-decimal rounding) while `sum(monthly_energy)
= 0.04`; the two are *not* within 0.1 relative tolerance, refuting the
claimed invariant for sub-0.5 yields. -/
theorem claim_C3_counterexample :
    (calculatePvEnergyResult 36.5 defaultSystemConfig poaSingleHour zeroSeries
        constTemp25).monthly_energy.sum = 1/25 ∧
    (calculatePvEnergyResult 36.5 defaultSystemConfig poaSingleHour zeroSeries
        constTemp25).annual_energy = 0 ∧
    ¬(|(calculatePvEnergyResult 36.5 defaultSystemConfig poaSingleHour zeroSeries
          constTemp25).annual_energy -
        (calculatePvEnergyResult 36.5 defaultSystemConfig poaSingleHour zeroSeries
          constTemp25).monthly_energy.sum|
      ≤ (1/10) * max
          |(calculatePvEnergyResult 36.5 defaultSystemConfig poaSingleHour zeroSeries
            constTemp25).annual_energy|
          |(calculatePvEnergyResult 36.5 defaultSystemConfig poaSingleHour zeroSeries
            constTemp25).monthly_energy.sum|) := by
  have hs : (calculatePvEnergyResult 36.5 defaultSystemConfig poaSingleHour zeroSeries
      constTemp25).monthly_energy.sum = 1/25 := by
    show (monthlyEnergyList defaultSystemConfig poaSingleHour zeroSeries constTemp25).sum = _
    unfold monthlyEnergyList
    rw [sum_monthly_eq_sum_hourly]
    exact annualEnergyExact_single
  have ha : (calculatePvEnergyResult 36.5 defaultSystemConfig poaSingleHour zeroSeries
      constTemp25).annual_energy = 0 := by
    show pyRound1 (annualEnergyExact defaultSystemConfig poaSingleHour zeroSeries
      constTemp25) = 0
    rw [annualEnergyExact_single]
    unfold pyRound1
    rw [show (10 : ℚ) * (1/25) = 2/5 by norm_num]
    have hfl : ⌊(2/5 : ℚ)⌋ = 0 := by
      rw [Int.floor_eq_iff]
      norm_num
    rw [roundHalfEven_eq_floor (2/5) (by rw [hfl]; norm_num)]
    rw [hfl]
    norm_num
  refine ⟨hs, ha, ?_⟩
  rw [hs, ha]
  rw [show (0 : ℚ) - 1/25 = -(1/25) by ring, abs_neg,
    abs_of_nonneg (by norm_num : (0:ℚ) ≤ 1/25), abs_zero,
    max_eq_right (by norm_num : (0:ℚ) ≤ 1/25)]
  norm_num

end Solaris
